import Mathlib

/-!
Verification of the IIO source block (`IIOSource.cpp`) against its
natural-language specification.

The C++ block is embedded shallowly: the engine state (`IIOSource`) is a
structure, the lifecycle callbacks (`make` for the constructor, `activate`,
`deactivate`, `work`) are pure functions over that state, and the external
collaborators (device catalog, poll primitive, refill results) are passed in
as explicit inputs.  Side-effects of `work()` (the poll, the timespec handed
to it, the refill, the per-port produce calls) are recorded in a `WorkEffect`
value so that claims about "no poll is issued" or "samples produced" can be
stated directly.
-/

/-- A device or channel attribute is identified here only by its name; the
get/set round trips are external and irrelevant to the claims. -/
abbrev AttrName := String

/-- Embeds `IIOChannel` (from `IIOSupport.hpp`, as used by `IIOSource.cpp`):
identifier, direction, scan-element flag, data-type descriptor, attributes. -/
structure IIOChannel where
  id : String
  isOutput : Bool
  isScanElement : Bool
  dtype : String
  attributes : List AttrName
deriving DecidableEq, Repr

/-- Embeds `IIODevice`: identifier, display name, attributes, channels.
`sampleStep` is modelled from the spec: the "step" (bytes per sample-row
across enabled scan-element channels) that the device-access layer reports
for a buffer created on this device; `IIOSupport.hpp` is not under `src/`. -/
structure IIODevice where
  id : String
  name : String
  attributes : List AttrName
  channels : List IIOChannel
  sampleStep : Nat
deriving DecidableEq, Repr

/-- Embeds `IIOBuffer`: sample capacity, cyclic flag, blocking mode, step.
`valid` is modelled from the spec: whether the device-access collaborator
could actually reserve the buffer (spec section 7, `BufferAllocationFailed`:
"device-access collaborator could not reserve a buffer"); the wrapper object
itself exists either way. -/
structure IIOBuffer where
  size : Nat
  cyclic : Bool
  blocking : Bool
  step : Nat
  valid : Bool
deriving DecidableEq, Repr

/-- Modelled from the spec: `createBuffer(device, sampleCapacity, cyclic) ->
Buffer` (spec section 6); `IIODevice::createBuffer` lives in
`IIOSupport.cpp`, which is not under `src/`.  `allocOk` models whether the
collaborator could reserve the buffer; the returned wrapper records the
requested capacity, the cyclic flag, the device's step, and starts in
blocking mode until `setBlockingMode` is called. -/
def createBuffer (d : IIODevice) (size : Nat) (cyclic : Bool) (allocOk : Bool) : IIOBuffer :=
  { size := size, cyclic := cyclic, blocking := true, step := d.sampleStep, valid := allocOk }

/-- The error taxonomy of spec section 7, realized in the code as
`Pothos::SystemException` throws. -/
inductive IIOError where
  | DeviceNotFound
  | NotConfigured
  | BufferAllocationFailed
  | PollFailed
deriving DecidableEq, Repr

/-- Embeds the state of the `IIOSource` block (`IIOSource.cpp` lines 50-57
plus the registrations the constructor performs and the device-side
channel-enable state that `c.enable()` mutates). -/
structure IIOSource where
  dev : Option IIODevice
  buf : Option IIOBuffer
  channels : List IIOChannel
  enablePorts : Bool
  bufferSize : Nat
  /-- output ports registered by `setupOutput(c.id(), c.dtype())`. -/
  outputPorts : List (String × String)
  /-- attribute getter/setter callables registered by `registerCallable`. -/
  attrCallables : List String
  /-- probes registered by `registerProbe`. -/
  probes : List String
  /-- device-side enable state: ids of channels enabled by `c.enable()`. -/
  enabledChannels : List String
deriving DecidableEq, Repr

/-- The channel-selection predicate of the constructor loop
(`IIOSource.cpp` lines 107-115): skip output channels; skip channels whose
id matches none of a non-empty allow-list (`std::none_of`). -/
def selectChannels (chans : List IIOChannel) (channelIds : List String) : List IIOChannel :=
  chans.filter (fun c =>
    !c.isOutput && !(decide (channelIds.length > 0) && !(channelIds.any (fun s => s == c.id))))

/-- Device-attribute accessor names registered by the constructor
(`IIOSource.cpp` lines 90-104). -/
def deviceAttrCallables (d : IIODevice) : List String :=
  d.attributes.foldr (fun a acc =>
    ("deviceAttribute[" ++ a ++ "]") :: ("setdeviceAttribute[" ++ a ++ "]") :: acc) []

/-- Channel-attribute accessor names registered by the constructor
(`IIOSource.cpp` lines 124-138), for the selected channels. -/
def channelAttrCallables (selected : List IIOChannel) : List String :=
  selected.foldr (fun c acc =>
    c.attributes.foldr (fun a acc2 =>
      ("channelAttribute[" ++ c.id ++ "][" ++ a ++ "]")
        :: ("setChannelAttribute[" ++ c.id ++ "][" ++ a ++ "]") :: acc2) acc) []

/-- Probe names registered by the constructor (one per getter). -/
def registeredProbes (d : IIODevice) (selected : List IIOChannel) : List String :=
  d.attributes.map (fun a => "deviceAttribute[" ++ a ++ "]")
    ++ selected.foldr (fun c acc =>
        c.attributes.map (fun a => "channelAttribute[" ++ c.id ++ "][" ++ a ++ "]") ++ acc) []

/-- Output ports registered for scan-element selected channels when
`enablePorts` holds (`IIOSource.cpp` lines 117-121). -/
def registeredPorts (selected : List IIOChannel) (enablePorts : Bool) : List (String × String) :=
  selected.filterMap (fun c =>
    if c.isScanElement && enablePorts then some (c.id, c.dtype) else none)

/-- Embeds the constructor `IIOSource::IIOSource` (`IIOSource.cpp` lines
59-140).  `ctxDevices` stands for `IIOContext::get().devices()`.  An empty
`deviceId` yields the partial placeholder object (lines 71-73); an unknown
id throws "device not found" (line 86); otherwise the device is resolved,
attribute accessors are registered, and the selected channels get ports and
accessors. -/
def IIOSource.make (ctxDevices : List IIODevice) (deviceId : String)
    (channelIds : List String) (enablePorts : Bool) (bufferSize : Nat) :
    Except IIOError IIOSource :=
  if deviceId = "" then
    .ok { dev := none, buf := none, channels := [], enablePorts := enablePorts,
          bufferSize := bufferSize, outputPorts := [], attrCallables := [],
          probes := [], enabledChannels := [] }
  else
    match ctxDevices.find? (fun d => d.id == deviceId) with
    | none => .error IIOError.DeviceNotFound
    | some d =>
      let selected := selectChannels d.channels channelIds
      .ok { dev := some d, buf := none, channels := selected,
            enablePorts := enablePorts, bufferSize := bufferSize,
            outputPorts := registeredPorts selected enablePorts,
            attrCallables := deviceAttrCallables d ++ channelAttrCallables selected,
            probes := registeredProbes d selected,
            enabledChannels := [] }

/-- Device-side effect of `IIOChannel::enable()`: mark the channel id
enabled (idempotent per channel, per spec section 4.4). -/
def enableChannel (st : List String) (id : String) : List String :=
  if st.contains id then st else st ++ [id]

/-- Embeds `IIOSource::activate` (`IIOSource.cpp` lines 204-235): fail if no
device; drop any existing buffer; enable every selected channel while
scanning for scan elements (single loop, lines 216-224); if any scan element
and `enablePorts`, create the buffer, run the (null-)check, and set
non-blocking mode.  `allocOk` feeds the spec-modelled `createBuffer`. -/
def activate (allocOk : Bool) (s : IIOSource) : Except IIOError IIOSource :=
  match s.dev with
  | none => .error IIOError.NotConfigured
  | some d =>
    let s1 := if s.buf.isSome then { s with buf := none } else s
    let p := s1.channels.foldl
      (fun (acc : List String × Bool) c =>
        (enableChannel acc.1 c.id, acc.2 || c.isScanElement))
      (s1.enabledChannels, false)
    let s2 := { s1 with enabledChannels := p.1 }
    if p.2 && s2.enablePorts then
      -- this->buf = std::unique_ptr<IIOBuffer>(new IIOBuffer(...)):
      -- the unique_ptr is assigned the (non-null) result of `new`.
      let b := createBuffer d s2.bufferSize false allocOk
      let s3 := { s2 with buf := some b }
      if s3.buf.isNone then .error IIOError.BufferAllocationFailed
      else .ok { s3 with buf := some { b with blocking := false } }
    else .ok s2

/-- Embeds `IIOSource::deactivate` (`IIOSource.cpp` lines 237-242): release
the buffer if one exists. -/
def deactivate (s : IIOSource) : IIOSource :=
  if s.buf.isSome then { s with buf := none } else s

/-- The per-call inputs `work()` reads from its environment: the scheduler's
`workInfo()` fields, the `ppoll` return value, and the byte count
`buf->refill()` returns. -/
structure WorkInput where
  minOutElements : Nat
  maxTimeoutNs : Nat
  pollResult : Int
  refillBytes : Nat
deriving DecidableEq, Repr

/-- How one `work()` invocation ends. -/
inductive WorkOutcome where
  /-- plain return (no-op, backpressure return, or after producing). -/
  | returned
  /-- `return this->yield()` on poll timeout. -/
  | yielded
  /-- throw of "ppoll failed". -/
  | pollFailed
  /-- `assert` failure: fatal abort on the refill invariant. -/
  | aborted
deriving DecidableEq, Repr

/-- Observable effects of one `work()` invocation. -/
structure WorkEffect where
  /-- whether `ppoll` was called. -/
  polled : Bool
  /-- the `timespec` handed to `ppoll`, as `(tv_sec, tv_nsec)`. -/
  ts : Option (Nat × Nat)
  /-- whether `buf->refill()` was called. -/
  refilled : Bool
  /-- `(port id, count)` for each `outputPort->produce(count)` call. -/
  produced : List (String × Nat)
  outcome : WorkOutcome
deriving DecidableEq, Repr

/-- The empty effect: `work()` touched nothing. -/
def noWorkEffect : WorkEffect :=
  { polled := false, ts := none, refilled := false, produced := [], outcome := .returned }

/-- Embeds the timespec construction of `IIOSource.cpp` lines 257-260:
`tv_sec = maxTimeoutNs / 10000000`, `tv_nsec = maxTimeoutNs % 10000000`
(the divisor written in the source is 10^7). -/
def mkPollTimespec (maxTimeoutNs : Nat) : Nat × Nat :=
  (maxTimeoutNs / 10000000, maxTimeoutNs % 10000000)

/-- Nanoseconds denoted by a `timespec`: `tv_sec * 10^9 + tv_nsec`. -/
def timespecToNs (ts : Nat × Nat) : Nat :=
  ts.1 * 1000000000 + ts.2

/-- Embeds `IIOSource::work` (`IIOSource.cpp` lines 244-285): no-op without
a buffer; backpressure return when `minOutElements < bufferSize`; `ppoll`
with the constructed timespec; throw on negative return, yield on zero;
refill, `assert(bytes_read % step == 0)` (fatal abort when false), compute
`sample_count = bytes_read / step`, and produce `sample_count` on the output
port of every selected scan-element channel. -/
def work (s : IIOSource) (inp : WorkInput) : WorkEffect :=
  match s.buf with
  | none => noWorkEffect
  | some b =>
    if inp.minOutElements < s.bufferSize then noWorkEffect
    else
      let ts := mkPollTimespec inp.maxTimeoutNs
      if inp.pollResult < 0 then
        { polled := true, ts := some ts, refilled := false, produced := [],
          outcome := .pollFailed }
      else if inp.pollResult = 0 then
        { polled := true, ts := some ts, refilled := false, produced := [],
          outcome := .yielded }
      else
        let bytes_read := inp.refillBytes
        if bytes_read % b.step = 0 then
          let sample_count := bytes_read / b.step
          { polled := true, ts := some ts, refilled := true,
            produced := (s.channels.filter (fun c => c.isScanElement)).map
              (fun c => (c.id, sample_count)),
            outcome := .returned }
        else
          { polled := true, ts := some ts, refilled := true, produced := [],
            outcome := .aborted }

/-- Recognizer for the dedicated buffer-allocation error. -/
def isBufAllocError : Except IIOError IIOSource → Bool
  | .error IIOError.BufferAllocationFailed => true
  | _ => false

/-! ### Concrete sample configuration, used by witnesses -/

/-- Scan-capable input channel, as in the spec's example scenario. -/
def voltage0 : IIOChannel :=
  { id := "voltage0", isOutput := false, isScanElement := true,
    dtype := "int16", attributes := [] }

/-- Second scan-capable input channel. -/
def voltage1 : IIOChannel :=
  { id := "voltage1", isOutput := false, isScanElement := true,
    dtype := "int16", attributes := [] }

/-- Output (DDS) channel, never selected. -/
def altvoltage0 : IIOChannel :=
  { id := "altvoltage0", isOutput := true, isScanElement := false,
    dtype := "int16", attributes := [] }

/-- Non-scan input channel (attribute-only). -/
def temp0 : IIOChannel :=
  { id := "temp0", isOutput := false, isScanElement := false,
    dtype := "int32", attributes := [] }

/-- Sample device with the channels above, step of 4 bytes per row. -/
def sampleDev : IIODevice :=
  { id := "iio:device0", name := "ad9361-phy", attributes := [],
    channels := [voltage0, voltage1, altvoltage0, temp0], sampleStep := 4 }

/-- Engine configured on `sampleDev` with all input channels selected,
ports enabled, capacity 1024, not yet activated. -/
def sampleConfigured : IIOSource :=
  { dev := some sampleDev, buf := none,
    channels := [voltage0, voltage1, temp0],
    enablePorts := true, bufferSize := 1024,
    outputPorts := [("voltage0", "int16"), ("voltage1", "int16")],
    attrCallables := [], probes := [], enabledChannels := [] }

/-- A buffer as `activate` leaves it on `sampleDev` with capacity 1024. -/
def sampleBuf : IIOBuffer :=
  { size := 1024, cyclic := false, blocking := false, step := 4, valid := true }

/-- The armed engine: `sampleConfigured` holding `sampleBuf`. -/
def sampleArmed : IIOSource :=
  { sampleConfigured with buf := some sampleBuf }

/-- Engine with no resolved device (constructed with an empty deviceId). -/
def placeholderSource : IIOSource :=
  { dev := none, buf := none, channels := [], enablePorts := true,
    bufferSize := 2048, outputPorts := [], attrCallables := [],
    probes := [], enabledChannels := [] }

/-- Work input with ample downstream space, 10 ms scheduler timeout, data
ready, and an aligned 4096-byte refill. -/
def readyInput : WorkInput :=
  { minOutElements := 2048, maxTimeoutNs := 10000000, pollResult := 1,
    refillBytes := 4096 }

/-- Work input whose refill byte count (4099) is not a multiple of the
4-byte step. -/
def tornInput : WorkInput :=
  { minOutElements := 2048, maxTimeoutNs := 10000000, pollResult := 1,
    refillBytes := 4099 }

/-- Work input with only 512 elements of downstream space. -/
def starvedInput : WorkInput :=
  { minOutElements := 512, maxTimeoutNs := 10000000, pollResult := 1,
    refillBytes := 4096 }

/-- Engine state produced by `IIOSource.make` on `sampleDev` with allow-list
`["voltage0"]`: only `voltage0` is selected. -/
def sampleSelectedSource : IIOSource :=
  { dev := some sampleDev, buf := none, channels := [voltage0],
    enablePorts := true, bufferSize := 1024,
    outputPorts := [("voltage0", "int16")],
    attrCallables := [], probes := [], enabledChannels := [] }

/-- The catalog holding just `sampleDev`. -/
def sampleCtx : List IIODevice := [sampleDev]

/-! ### Helper lemmas -/

/-- The constructor's keep-condition, as a proposition. -/
theorem selectCond_eq (ids : List String) (c : IIOChannel) :
    (!c.isOutput && !(decide (ids.length > 0) && !(ids.any (fun s => s == c.id)))) = true
      ↔ (c.isOutput = false ∧ (ids = [] ∨ c.id ∈ ids)) := by
  cases hout : c.isOutput <;> cases ids <;>
    simp [List.any_eq_true, beq_iff_eq, hout]
  exact or_congr eq_comm Iff.rfl

/-- Membership in the constructor's channel filter. -/
theorem mem_selectChannels (chans : List IIOChannel) (ids : List String)
    (c : IIOChannel) :
    c ∈ selectChannels chans ids ↔
      c ∈ chans ∧ c.isOutput = false ∧ (ids = [] ∨ c.id ∈ ids) := by
  simp only [selectChannels, List.mem_filter]
  exact ⟨fun ⟨h1, h2⟩ => ⟨h1, (selectCond_eq ids c).1 h2⟩,
    fun ⟨h1, h2⟩ => ⟨h1, (selectCond_eq ids c).2 h2⟩⟩

/-- The second component of the enable/scan fold of `activate` is the
disjunction of the scan-element flags. -/
theorem foldl_enable_snd (l : List IIOChannel) (e : List String) (b : Bool) :
    (l.foldl (fun (acc : List String × Bool) c =>
        (enableChannel acc.1 c.id, acc.2 || c.isScanElement)) (e, b)).2
      = (b || l.any (fun c => c.isScanElement)) := by
  induction l generalizing e b with
  | nil => simp
  | cons c t ih => simp [List.foldl_cons, ih, Bool.or_assoc]

/-- Closed form of `activate` when a device is resolved: it always succeeds,
enabling the selected channels, and holds a fresh non-blocking buffer of the
configured capacity exactly when some selected channel is a scan element and
ports are enabled. -/
theorem activate_result (ao : Bool) (s : IIOSource) (d : IIODevice)
    (hdev : s.dev = some d) :
    activate ao s = Except.ok (
      if s.channels.any (fun c => c.isScanElement) && s.enablePorts then
        { s with
            buf := some { size := s.bufferSize, cyclic := false,
                          blocking := false, step := d.sampleStep, valid := ao },
            enabledChannels := (s.channels.foldl
              (fun (acc : List String × Bool) c =>
                (enableChannel acc.1 c.id, acc.2 || c.isScanElement))
              (s.enabledChannels, false)).1 }
      else
        { s with
            buf := none,
            enabledChannels := (s.channels.foldl
              (fun (acc : List String × Bool) c =>
                (enableChannel acc.1 c.id, acc.2 || c.isScanElement))
              (s.enabledChannels, false)).1 }) := by
  cases s with
  | mk dev buf channels ep bs op ac pr ec =>
    obtain rfl : dev = some d := hdev
    unfold activate
    cases buf <;>
      by_cases h : (channels.any (fun c => c.isScanElement) && ep) = true <;>
        simp [createBuffer, foldl_enable_snd, h]

/-! ### Theorems -/

/-- C3: whenever the downstream space (`minOutElements`) is smaller than the
configured buffer capacity, `work()` returns immediately: no poll is issued,
no refill occurs, and no samples are produced on any output stream. -/
theorem work_backpressure (s : IIOSource) (inp : WorkInput)
    (h : inp.minOutElements < s.bufferSize) :
    work s inp = noWorkEffect := by
  unfold work
  cases s.buf with
  | none => rfl
  | some b => simp [h]

/-- Witness for C3 at a concrete input: space 512 below capacity 1024. -/
theorem work_backpressure_witness :
    work sampleArmed starvedInput = noWorkEffect :=
  work_backpressure sampleArmed starvedInput (by decide)

/-- C8: `deactivate()` is idempotent — a second call changes nothing — and
after any call no acquisition buffer exists (the engine is Idle); as a total
function it also cannot fail, before or after any `activate()`. -/
theorem deactivate_idempotent (s : IIOSource) :
    deactivate (deactivate s) = deactivate s ∧ (deactivate s).buf = none := by
  cases s with
  | mk dev buf channels ep bs op ac pr ec => cases buf <;> simp [deactivate]

/-- C10: `deactivate()` modifies only the buffer field: the resolved device,
the selected channels, the configuration, the registered ports, callables and
probes, and the device-side channel-enable state are all unchanged, and the
buffer is gone. -/
theorem deactivate_frame (s : IIOSource) :
    (deactivate s).dev = s.dev ∧
    (deactivate s).channels = s.channels ∧
    (deactivate s).enablePorts = s.enablePorts ∧
    (deactivate s).bufferSize = s.bufferSize ∧
    (deactivate s).outputPorts = s.outputPorts ∧
    (deactivate s).attrCallables = s.attrCallables ∧
    (deactivate s).probes = s.probes ∧
    (deactivate s).enabledChannels = s.enabledChannels ∧
    (deactivate s).buf = none := by
  cases s with
  | mk dev buf channels ep bs op ac pr ec => cases buf <;> simp [deactivate]

/-- C1: whenever `work()` performs a refill, a byte count that is not a
whole multiple of the buffer's step is fatal: the invariant check aborts the
call, no sample count is computed, and no samples are produced; conversely,
a refill that completes without aborting transferred an exact multiple of
the step. -/
theorem work_refill_step_invariant (s : IIOSource) (b : IIOBuffer) (inp : WorkInput)
    (hb : s.buf = some b) (href : (work s inp).refilled = true) :
    (inp.refillBytes % b.step = 0 ∧ (work s inp).outcome = WorkOutcome.returned) ∨
    (inp.refillBytes % b.step ≠ 0 ∧ (work s inp).outcome = WorkOutcome.aborted ∧
      (work s inp).produced = []) := by
  unfold work at href ⊢
  rw [hb] at href ⊢
  by_cases hsp : inp.minOutElements < s.bufferSize
  · simp [hsp, noWorkEffect] at href
  · by_cases hneg : inp.pollResult < 0
    · simp [hsp, hneg] at href
    · by_cases hz : inp.pollResult = 0
      · simp [hsp, hneg, hz] at href
      · by_cases hmod : inp.refillBytes % b.step = 0
        · exact Or.inl ⟨hmod, by simp [hsp, hneg, hz, hmod]⟩
        · exact Or.inr ⟨hmod, by simp [hsp, hneg, hz, hmod]⟩

/-- Witness for C1 at a concrete input: a 4099-byte refill against a 4-byte
step aborts the call and produces nothing. -/
theorem work_refill_step_invariant_witness :
    (tornInput.refillBytes % sampleBuf.step = 0 ∧
      (work sampleArmed tornInput).outcome = WorkOutcome.returned) ∨
    (tornInput.refillBytes % sampleBuf.step ≠ 0 ∧
      (work sampleArmed tornInput).outcome = WorkOutcome.aborted ∧
      (work sampleArmed tornInput).produced = []) :=
  work_refill_step_invariant sampleArmed sampleBuf tornInput rfl (by decide)

/-- C2 (code bug): the timespec handed to `ppoll` does not equal the
scheduler's `maxTimeoutNs`.  The source divides by 10^7 instead of 10^9 when
splitting nanoseconds into `(tv_sec, tv_nsec)`, so a 10-millisecond bound
(10^7 ns) yields a timespec of 1 second — 10^9 ns, one hundred times the
scheduler-supplied bound. -/
theorem work_timeout_conversion_overflow :
    (work sampleArmed readyInput).ts = some (mkPollTimespec 10000000) ∧
    readyInput.maxTimeoutNs = 10000000 ∧
    mkPollTimespec 10000000 = (1, 0) ∧
    timespecToNs (mkPollTimespec 10000000) = 1000000000 ∧
    10000000 < timespecToNs (mkPollTimespec 10000000) := by
  refine ⟨?_, rfl, by decide, by decide, by decide⟩
  decide

/-- C5: in a refill cycle that reaches the demultiplexing stage, every
scan-element channel of the selected set has exactly
`sample_count = bytes_transferred / step` samples produced on its own output
stream, and every produce call of that cycle carries that same count. -/
theorem work_demux_alignment (s : IIOSource) (b : IIOBuffer) (inp : WorkInput)
    (hb : s.buf = some b)
    (hsp : ¬ inp.minOutElements < s.bufferSize)
    (hpoll : 0 < inp.pollResult)
    (hmod : inp.refillBytes % b.step = 0) :
    (∀ c ∈ s.channels, c.isScanElement = true →
      (c.id, inp.refillBytes / b.step) ∈ (work s inp).produced) ∧
    (∀ q ∈ (work s inp).produced, q.2 = inp.refillBytes / b.step) := by
  have hneg : ¬ inp.pollResult < 0 := by omega
  have hz : ¬ inp.pollResult = 0 := by omega
  unfold work
  rw [hb]
  simp only [hsp, hneg, hz, hmod, if_false, if_true, if_neg, if_pos]
  constructor
  · intro c hc hscan
    simp only [List.mem_map, List.mem_filter]
    exact ⟨c, ⟨hc, hscan⟩, rfl⟩
  · intro q hq
    simp only [List.mem_map, List.mem_filter] at hq
    obtain ⟨c, _, rfl⟩ := hq
    rfl

/-- Witness for C5: the spec's example — 4096 bytes at step 4 produce 1024
samples on the `voltage0` stream, and every stream of the cycle gets 1024. -/
theorem work_demux_alignment_witness :
    ("voltage0", readyInput.refillBytes / sampleBuf.step) ∈
      (work sampleArmed readyInput).produced :=
  (work_demux_alignment sampleArmed sampleBuf readyInput rfl (by decide)
      (by decide) (by decide)).1 voltage0 (by decide) rfl

/-- C4: for every catalog, device id and allow-list, a channel is in the
constructed engine's selected set iff it is a channel of the resolved
device, it is an input channel, and the allow-list is empty or contains the
channel's identifier. -/
theorem selected_channels_iff (ctx : List IIODevice) (deviceId : String)
    (channelIds : List String) (ep : Bool) (bs : Nat) (s : IIOSource)
    (d : IIODevice) (c : IIOChannel)
    (hmk : IIOSource.make ctx deviceId channelIds ep bs = Except.ok s)
    (hdev : s.dev = some d) :
    c ∈ s.channels ↔
      c ∈ d.channels ∧ c.isOutput = false ∧
        (channelIds = [] ∨ c.id ∈ channelIds) := by
  unfold IIOSource.make at hmk
  by_cases hid : deviceId = ""
  · rw [if_pos hid] at hmk
    simp only [Except.ok.injEq] at hmk
    subst hmk
    simp at hdev
  · rw [if_neg hid] at hmk
    cases hf : ctx.find? (fun d2 => d2.id == deviceId) with
    | none =>
      rw [hf] at hmk
      exact absurd hmk (by simp)
    | some d2 =>
      rw [hf] at hmk
      simp only [Except.ok.injEq] at hmk
      subst hmk
      obtain rfl : d2 = d := by
        have h2 : some d2 = some d := hdev
        injection h2
      exact mem_selectChannels _ channelIds c

/-- Witness for C4: on the sample device with allow-list `["voltage0"]`,
membership of `voltage0` in the selected set matches the predicate. -/
theorem selected_channels_iff_witness :
    voltage0 ∈ sampleSelectedSource.channels ↔
      voltage0 ∈ sampleDev.channels ∧ voltage0.isOutput = false ∧
        ((["voltage0"] : List String) = [] ∨ voltage0.id ∈ ["voltage0"]) :=
  selected_channels_iff sampleCtx "iio:device0" ["voltage0"] true 1024
    sampleSelectedSource sampleDev voltage0 rfl rfl

/-- C6: with a resolved device, `activate()` succeeds and holds a buffer of
the configured sample capacity in non-blocking mode iff the selected set has
a scan-element channel and ports are enabled; with no scan-element channel it
never allocates, and every subsequent `work()` call is a no-op. -/
theorem activate_buffer_allocation (ao : Bool) (s : IIOSource) (d : IIODevice)
    (hdev : s.dev = some d) :
    ∃ s2, activate ao s = Except.ok s2 ∧
      ((s.channels.any (fun c => c.isScanElement) && s.enablePorts) = true ↔
        ∃ b, s2.buf = some b ∧ b.size = s.bufferSize ∧ b.blocking = false) ∧
      (s.channels.any (fun c => c.isScanElement) = false →
        s2.buf = none ∧ ∀ inp, work s2 inp = noWorkEffect) := by
  by_cases h : (s.channels.any (fun c => c.isScanElement) && s.enablePorts) = true
  · rw [activate_result ao s d hdev, if_pos h]
    refine ⟨_, rfl, ?_, ?_⟩
    · exact ⟨fun _ => ⟨_, rfl, rfl, rfl⟩, fun _ => h⟩
    · intro hfalse
      rw [hfalse] at h
      simp at h
  · rw [activate_result ao s d hdev, if_neg h]
    refine ⟨_, rfl, ?_, ?_⟩
    · constructor
      · intro hh
        exact absurd hh h
      · rintro ⟨b, hb, -, -⟩
        exact absurd hb (by simp)
    · intro _
      exact ⟨rfl, fun inp => rfl⟩

/-- Witness for C6: the sample configuration (scan elements present, ports
enabled) yields a 1024-sample non-blocking buffer. -/
theorem activate_buffer_allocation_witness :
    ∃ s2, activate true sampleConfigured = Except.ok s2 ∧
      ((sampleConfigured.channels.any (fun c => c.isScanElement) &&
          sampleConfigured.enablePorts) = true ↔
        ∃ b, s2.buf = some b ∧ b.size = sampleConfigured.bufferSize ∧
          b.blocking = false) ∧
      (sampleConfigured.channels.any (fun c => c.isScanElement) = false →
        s2.buf = none ∧ ∀ inp, work s2 inp = noWorkEffect) :=
  activate_buffer_allocation true sampleConfigured sampleDev rfl

/-- C7: construction with an empty device id succeeds as an unconfigured
placeholder — no device, no attribute accessors, no probes, no output
streams, no channels, no buffer — and `activate()` on any engine without a
resolved device fails with the not-configured error, enabling no channel and
allocating no buffer. -/
theorem empty_device_placeholder (ctx : List IIODevice) (ids : List String)
    (ep : Bool) (bs : Nat) :
    (∃ s, IIOSource.make ctx "" ids ep bs = Except.ok s ∧ s.dev = none ∧
      s.attrCallables = [] ∧ s.probes = [] ∧ s.outputPorts = [] ∧
      s.channels = [] ∧ s.buf = none) ∧
    (∀ ao : Bool, ∀ t : IIOSource, t.dev = none →
      activate ao t = Except.error IIOError.NotConfigured) := by
  constructor
  · exact ⟨_, rfl, rfl, rfl, rfl, rfl, rfl, rfl⟩
  · intro ao t ht
    unfold activate
    rw [ht]

/-- Witness for C7: activating the concrete placeholder fails with
`NotConfigured`. -/
theorem empty_device_placeholder_witness :
    activate true placeholderSource = Except.error IIOError.NotConfigured :=
  (empty_device_placeholder [] [] true 2048).2 true placeholderSource rfl

/-- C9 (code bug): the dedicated `BufferAllocationFailed` branch of
`activate()` is unreachable.  The source checks `if (!this->buf)` on a
`unique_ptr` that was just assigned the result of `new`, which is never
null; so even when the device-access collaborator cannot reserve the buffer
(`allocOk = false`), `activate()` returns successfully holding an unbacked
buffer, and no input whatsoever makes `activate()` raise the
buffer-allocation error. -/
theorem alloc_failure_unreported :
    (∃ s2, activate false sampleConfigured = Except.ok s2 ∧
      ∃ b, s2.buf = some b ∧ b.valid = false) ∧
    (∀ ao : Bool, ∀ s : IIOSource, isBufAllocError (activate ao s) = false) := by
  constructor
  · exact ⟨_, rfl, _, rfl, rfl⟩
  · intro ao s
    cases hdev : s.dev with
    | none =>
      unfold activate
      rw [hdev]
      rfl
    | some d =>
      rw [activate_result ao s d hdev]
      rfl
